import Mathlib

/-!
Shallow embedding of the Telegram report-generation bot (`src/bot.py`).

The bot is sequential request/response glue: each handler is modelled as a
pure function from its inputs (callback token, generator outcome, database
pool contents, caller identity) to the ordered list of observable effects it
performs (replies, message edits, generator invocations, database accesses,
per-recipient send attempts).  Python string operations used by the code
(`startswith`, `split(":", 1)[1]`, `strip`, `" ".join`) are embedded as
executable functions on `String`/`List Char`.
-/

namespace ReportBot

/-- Python `str.startswith` via an executable character-list prefix test. -/
def pyIsPrefixOf : List Char → List Char → Bool
  | [], _ => true
  | _ :: _, [] => false
  | a :: as, b :: bs => if a = b then pyIsPrefixOf as bs else false

/-- `s.startswith(pre)` from Python. -/
def pyStartswith (s pre : String) : Bool := pyIsPrefixOf pre.data s.data

/-- The characters after the first `':'` of a string; models the second
component of Python `s.split(":", 1)` on inputs that contain a colon. -/
def afterFirstColon : List Char → List Char
  | [] => []
  | c :: rest => if c = ':' then rest else afterFirstColon rest

/-- `s.split(":", 1)[1]` from Python (the code only evaluates this after a
`startswith` check guarantees a colon is present). -/
def pySplitColon1 (s : String) : String := ⟨afterFirstColon s.data⟩

/-- Python `str.isspace` characters relevant to `str.strip()`. -/
def pyIsSpace (c : Char) : Bool :=
  c = ' ' || c = '\t' || c = '\n' || c = '\r' || c = '\x0b' || c = '\x0c'

/-- Python `s.strip()`: drop leading and trailing whitespace. -/
def pyStrip (s : String) : String :=
  ⟨((s.data.dropWhile pyIsSpace).reverse.dropWhile pyIsSpace).reverse⟩

/-- `REPORT_CATEGORIES` from `src/bot.py` (insertion-ordered dict as an
association list). -/
def REPORT_CATEGORIES : List (String × String) :=
  [("spam", "Spam report"),
   ("harassment", "Harassment/Threat"),
   ("illegal", "Illegal content"),
   ("unofficial", "Use of unofficial apps"),
   ("malware", "Sending malicious content / malware")]

/-- Python `d.get(k, dflt)` on an association list. -/
def dictGet (d : List (String × String)) (k dflt : String) : String :=
  (d.lookup k).getD dflt

/-- An inline keyboard button: label plus opaque callback token. -/
structure Button where
  label : String
  callback_data : String
  deriving DecidableEq, Repr

/-- An inline keyboard markup: ordered rows of buttons. -/
abbrev Keyboard := List (List Button)

/-- The observable effects a handler performs, in program order. -/
inductive Effect where
  | answerCallback : Effect
  | replyText (text : String) (kb : Option Keyboard) : Effect
  | editMessageText (text : String) (kb : Option Keyboard) : Effect
  | generateCall (reason : String) : Effect
  | dbUpsert (id : Int) (username firstName lastName : Option String) : Effect
  | dbFetchIds : Effect
  | sendMessage (chatId : Int) (text : String) : Effect
  deriving DecidableEq, Repr

/-- `main_menu_keyboard` from `src/bot.py`: one row per category
(label, token `cat:<key>`), then a Help row. -/
def main_menu_keyboard : Keyboard :=
  (REPORT_CATEGORIES.map fun kv => [Button.mk kv.2 ("cat:" ++ kv.1)])
    ++ [[Button.mk "Help" "help"]]

/-- `report_item_keyboard` from `src/bot.py`: Regenerate (token encodes the
category key) and Back on the first row, Home on the second. -/
def report_item_keyboard (cat_key : String) : Keyboard :=
  [[Button.mk "Regenerate" ("regen:" ++ cat_key), Button.mk "Back" "back:menu"],
   [Button.mk "Home" "home"]]

/-- The response object returned by the remote generation call: its
attributes (name to optional string value) and its `str()` conversion. -/
structure GenResponse where
  attr : String → Option String
  strRepr : String

/-- The extraction inside `sync_call` in `generate_report_text`:
`getattr(response, "text", str(response))`. -/
def sync_call (response : GenResponse) : String :=
  (response.attr "text").getD response.strRepr

/-- The success path of `generate_report_text`: extract the payload from the
response and strip leading/trailing whitespace. -/
def generate_report_text (response : GenResponse) : String :=
  pyStrip (sync_call response)

/-- The prompt built by `generate_report_text` for a given reason string
(the Python f-string, with `{reason}` substituted). -/
def buildPrompt (reason : String) : String :=
  "You are a helper that generates a short, formal report message to appeal or report a WhatsApp account.\n"
  ++ "You MUST ONLY output the report text (no extra commentary, no signatures, no \x27As an AI\x27 lines).\n"
  ++ ("Reason: " ++ reason ++ "\n")
  ++ "Include the necessary details for a WhatsApp report: what happened in 2-4 concise paragraphs,"
  ++ " include time, example messages (short), and a clear request for action (e.g., reinstate/ban/remove content).\n"
  ++ "Keep it professional and concise (max ~200-300 words)."

/-- The welcome text sent by the `/start` handler. -/
def welcome_text : String :=
  "Hi — this bot helps generate formal WhatsApp report & appeal messages.\n\n"
  ++ "Choose the issue you want to report from the menu below. Each report button will generate a ready-to-send report message."

/-- A Telegram user as seen by the `/start` handler. -/
structure TgUser where
  id : Int
  username : Option String
  first_name : Option String
  last_name : Option String

/-- The `/start` handler (`start` in `src/bot.py`): reply with the welcome
text and main menu, then upsert the user into the registry when a database
pool is available (`db_pool` carries the registered ids when present). -/
def start (user : TgUser) (db_pool : Option (List Int)) : List Effect :=
  Effect.replyText welcome_text (some main_menu_keyboard) ::
    (match db_pool with
     | some _ => [Effect.dbUpsert user.id user.username user.first_name user.last_name]
     | none => [])

/-- Which branch of `callback_query_handler`'s if/elif chain a callback
token selects. -/
inductive Branch where
  | cat : Branch
  | regen : Branch
  | backMenu : Branch
  | home : Branch
  | help : Branch
  | unknown : Branch
  deriving DecidableEq, Repr

/-- The if/elif dispatch of `callback_query_handler` on the callback data. -/
def dispatchBranch (data : String) : Branch :=
  if pyStartswith data "cat:" then Branch.cat
  else if pyStartswith data "regen:" then Branch.regen
  else if data = "back:menu" then Branch.backMenu
  else if data = "home" then Branch.home
  else if data = "help" then Branch.help
  else Branch.unknown

/-- `callback_query_handler` from `src/bot.py`.  `gen` is the outcome of
`await generate_report_text(reason)`: `.ok text` on success, `.error e` when
the call raised an exception with description `e`.  Returns the ordered
effect trace of the handler. -/
def callback_query_handler (data : String) (gen : Except String String) : List Effect :=
  Effect.answerCallback ::
    (match dispatchBranch data with
     | Branch.cat =>
        let cat := pySplitColon1 data
        let reason := dictGet REPORT_CATEGORIES cat cat
        Effect.replyText "Generating report message... ⏳" none ::
        Effect.generateCall reason ::
          (match gen with
           | Except.error e => [Effect.editMessageText ("Error generating report: " ++ e) none]
           | Except.ok generated =>
              [Effect.editMessageText generated (some (report_item_keyboard cat))])
     | Branch.regen =>
        let cat := pySplitColon1 data
        let reason := dictGet REPORT_CATEGORIES cat cat
        Effect.replyText "Regenerating report message... ⏳" none ::
        Effect.generateCall reason ::
          (match gen with
           | Except.error e => [Effect.editMessageText ("Error regenerating: " ++ e) none]
           | Except.ok generated =>
              [Effect.editMessageText generated (some (report_item_keyboard cat))])
     | Branch.backMenu =>
        [Effect.replyText "Back to report menu:" (some main_menu_keyboard)]
     | Branch.home =>
        [Effect.replyText "Main menu:" (some main_menu_keyboard)]
     | Branch.help =>
        [Effect.replyText "This bot generates report text only. Use Regenerate to get a new report, Back to return to report list, Home for main menu." none]
     | Branch.unknown =>
        [Effect.replyText "Unknown action." none])

/-- The per-recipient delivery loop of `broadcast_cmd`: one send attempt per
user id, counting successes and failures.  `deliver uid = true` means the
send to `uid` succeeds; a failure only increments the failure count. -/
def broadcast_loop (deliver : Int → Bool) (msg : String) : List Int → List Effect × Nat × Nat
  | [] => ([], 0, 0)
  | uid :: rest =>
    let r := broadcast_loop deliver msg rest
    (Effect.sendMessage uid msg :: r.1,
     (if deliver uid then r.2.1 + 1 else r.2.1),
     (if deliver uid then r.2.2 else r.2.2 + 1))

/-- The inputs of `broadcast_cmd`: caller id, the `ADMIN_IDS` allow-list,
`context.args`, and the database pool (carrying the registered user ids when
available). -/
structure BroadcastCtx where
  callerId : Int
  adminIds : List Int
  args : List String
  db_pool : Option (List Int)

/-- `broadcast_cmd` from `src/bot.py`: admin check, then empty-message
check, then pool check, then fetch ids and deliver to each independently,
finally report the sent/failed counts. -/
def broadcast_cmd (ctx : BroadcastCtx) (deliver : Int → Bool) : List Effect :=
  if ctx.callerId ∉ ctx.adminIds then
    [Effect.replyText "You are not authorized to broadcast." none]
  else if pyStrip (String.intercalate " " ctx.args) = "" then
    [Effect.replyText "Usage: /broadcast <message>" none]
  else
    match ctx.db_pool with
    | none => [Effect.replyText "Database not ready." none]
    | some user_ids =>
      Effect.dbFetchIds ::
      Effect.replyText ("Broadcasting to " ++ toString user_ids.length ++ " users...") none ::
      (broadcast_loop deliver (pyStrip (String.intercalate " " ctx.args)) user_ids).1
      ++ [Effect.replyText
            ("Done. Sent: "
              ++ toString (broadcast_loop deliver (pyStrip (String.intercalate " " ctx.args)) user_ids).2.1
              ++ ", Failed: "
              ++ toString (broadcast_loop deliver (pyStrip (String.intercalate " " ctx.args)) user_ids).2.2)
            none]

/-- All callback tokens carried by a keyboard's buttons. -/
def keyboardTokens (kb : Keyboard) : List String :=
  kb.flatten.map Button.callback_data

/-- The reasons passed to the generator within an effect trace. -/
def genCalls (tr : List Effect) : List String :=
  tr.filterMap fun e =>
    match e with
    | Effect.generateCall r => some r
    | _ => none

/-- The recipient ids of the send attempts within an effect trace. -/
def sendAttempts (tr : List Effect) : List Int :=
  tr.filterMap fun e =>
    match e with
    | Effect.sendMessage uid _ => some uid
    | _ => none

/-- The registry upsert effects within an effect trace. -/
def dbUpserts (tr : List Effect) : List Effect :=
  tr.filter fun e =>
    match e with
    | Effect.dbUpsert _ _ _ _ => true
    | _ => false

/-- Whether an effect displays the main menu keyboard. -/
def showsMainMenu (e : Effect) : Bool :=
  match e with
  | Effect.replyText _ (some kb) => kb == main_menu_keyboard
  | Effect.editMessageText _ (some kb) => kb == main_menu_keyboard
  | _ => false

/-- The callback token of the Regenerate button of a keyboard, if any. -/
def regenTokenOf (kb : Keyboard) : Option String :=
  (kb.flatten.find? fun b => b.label == "Regenerate").map Button.callback_data

/-- `s` contains `sub` as a contiguous substring. -/
def strContains (s sub : String) : Prop := ∃ pre post, s = pre ++ sub ++ post

/-- The literal output-only directive of the prompt. -/
def output_only_directive : String :=
  "You MUST ONLY output the report text (no extra commentary, no signatures, no \x27As an AI\x27 lines)."


/-- First line of the prompt, before the output-only directive. -/
def promptPre : String :=
  "You are a helper that generates a short, formal report message to appeal or report a WhatsApp account.\n"

/-- The prompt text between the directive and the reason. -/
def promptMid : String := "\nReason: "

/-- The prompt text after the reason. -/
def promptPost : String :=
  "\nInclude the necessary details for a WhatsApp report: what happened in 2-4 concise paragraphs,"
  ++ " include time, example messages (short), and a clear request for action (e.g., reinstate/ban/remove content).\n"
  ++ "Keep it professional and concise (max ~200-300 words)."

theorem buildPrompt_decomp (r : String) :
    buildPrompt r = promptPre ++ output_only_directive ++ (promptMid ++ r ++ promptPost) := by
  have h2 : ("You MUST ONLY output the report text (no extra commentary, no signatures, no \x27As an AI\x27 lines).\n" : String)
      = output_only_directive ++ "\n" := rfl
  simp only [buildPrompt, promptPre, promptMid, promptPost, h2, String.append_assoc]
  rfl

theorem buildPrompt_contains_directive (r : String) :
    strContains (buildPrompt r) output_only_directive :=
  ⟨promptPre, promptMid ++ r ++ promptPost, buildPrompt_decomp r⟩

theorem buildPrompt_contains_reason (r : String) : strContains (buildPrompt r) r := by
  refine ⟨promptPre ++ output_only_directive ++ promptMid, promptPost, ?_⟩
  rw [buildPrompt_decomp]
  simp [String.append_assoc]

theorem broadcast_loop_trace (deliver : Int → Bool) (msg : String) (ids : List Int) :
    (broadcast_loop deliver msg ids).1 = ids.map fun uid => Effect.sendMessage uid msg := by
  induction ids with
  | nil => rfl
  | cons uid rest ih => simp [broadcast_loop, ih]

theorem broadcast_loop_counts (deliver : Int → Bool) (msg : String) (ids : List Int) :
    (broadcast_loop deliver msg ids).2.1 + (broadcast_loop deliver msg ids).2.2 = ids.length := by
  induction ids with
  | nil => rfl
  | cons uid rest ih =>
    by_cases h : deliver uid <;> simp [broadcast_loop, h] <;> omega

theorem sendAttempts_of_sends (msg : String) (ids : List Int) :
    sendAttempts (ids.map fun uid => Effect.sendMessage uid msg) = ids := by
  induction ids with
  | nil => rfl
  | cons uid rest ih => simp [sendAttempts, List.filterMap_cons] at ih ⊢ ; exact ih



/-- C1 (counterexample): on `cat:spam` with a generation fault, the handler
edits the placeholder to the error text with NO keyboard attached — the
post-generation menu is not re-offered. -/
theorem C1_counterexample :
    callback_query_handler "cat:spam" (Except.error "network fault") =
      [Effect.answerCallback,
       Effect.replyText "Generating report message... ⏳" none,
       Effect.generateCall "Spam report",
       Effect.editMessageText "Error generating report: network fault" none] ∧
    (none : Option Keyboard) ≠ some (report_item_keyboard "spam") := by
  exact ⟨rfl, by decide⟩

/-- C1 (amended): for every generation failure on the `cat:<key>` or
`regen:<key>` path, the handler displays an error message containing the
fault description, but attaches no keyboard to it — the post-generation
action menu is not re-attached. -/
theorem C1_error_paths (c e : String) :
    callback_query_handler ("cat:" ++ c) (Except.error e) =
      [Effect.answerCallback,
       Effect.replyText "Generating report message... ⏳" none,
       Effect.generateCall (dictGet REPORT_CATEGORIES c c),
       Effect.editMessageText ("Error generating report: " ++ e) none] ∧
    callback_query_handler ("regen:" ++ c) (Except.error e) =
      [Effect.answerCallback,
       Effect.replyText "Regenerating report message... ⏳" none,
       Effect.generateCall (dictGet REPORT_CATEGORIES c c),
       Effect.editMessageText ("Error regenerating: " ++ e) none] ∧
    strContains ("Error generating report: " ++ e) e ∧
    strContains ("Error regenerating: " ++ e) e :=
  ⟨rfl, rfl,
   ⟨"Error generating report: ", "", by rw [String.append_empty]⟩,
   ⟨"Error regenerating: ", "", by rw [String.append_empty]⟩⟩

/-- C2 (counterexample): a response exposing the payload only under a second
accessor name (`output_text`) and not under `text` makes the generator fall
back to the string conversion of the whole response — only the single
accessor `text` is consulted. -/
theorem C2_counterexample :
    generate_report_text
        (GenResponse.mk (fun n => if n = "output_text" then some "The report text." else none)
          "<GenerateContentResponse>")
      = "<GenerateContentResponse>" ∧
    ("<GenerateContentResponse>" : String) ≠ "The report text." :=
  ⟨rfl, by decide⟩

/-- C2 (amended): the generator extracts the payload through the single
accessor name `text`, falls back to the string conversion of the whole
response when it is absent, trims whitespace, and its result depends on no
other attribute of the response. -/
theorem C2_single_accessor (resp : GenResponse) :
    (∀ t, resp.attr "text" = some t → generate_report_text resp = pyStrip t) ∧
    (resp.attr "text" = none → generate_report_text resp = pyStrip resp.strRepr) ∧
    generate_report_text resp =
      generate_report_text
        (GenResponse.mk (fun n => if n = "text" then resp.attr "text" else none) resp.strRepr) := by
  refine ⟨fun t h => ?_, fun h => ?_, rfl⟩
  · simp [generate_report_text, sync_call, h]
  · simp [generate_report_text, sync_call, h]

theorem C2_witness :
    (GenResponse.mk (fun _ => some "  Report body.\n") "X").attr "text" = some "  Report body.\n" ∧
    generate_report_text (GenResponse.mk (fun _ => some "  Report body.\n") "X") = "Report body." :=
  ⟨rfl, (C2_single_accessor (GenResponse.mk (fun _ => some "  Report body.\n") "X")).1 "  Report body.\n" rfl⟩

/-- C3: the keyboard attached after a successful generation for category `c`
encodes `c` in its Regenerate token, and the `regen:<key>` handler resolves
the same category — and thus the same generation reason — from that token. -/
theorem C3_regen_same_category (c g : String) (out : Except String String) :
    (callback_query_handler ("cat:" ++ c) (Except.ok g)).getLast? =
      some (Effect.editMessageText g (some (report_item_keyboard c))) ∧
    regenTokenOf (report_item_keyboard c) = some ("regen:" ++ c) ∧
    genCalls (callback_query_handler ("regen:" ++ c) out) =
      [dictGet REPORT_CATEGORIES c c] ∧
    genCalls (callback_query_handler ("cat:" ++ c) out) =
      [dictGet REPORT_CATEGORIES c c] := by
  refine ⟨rfl, rfl, ?_, ?_⟩ <;> cases out <;> rfl

/-- C6 (counterexample): the bare token `regen` (no category key) does not
match the `regen:` branch; the handler replies `Unknown action.` with no
keyboard, and no effect of the trace shows the main menu. -/
theorem C6_counterexample :
    callback_query_handler "regen" (Except.ok "Report.") =
      [Effect.answerCallback, Effect.replyText "Unknown action." none] ∧
    ((callback_query_handler "regen" (Except.ok "Report.")).all
      fun e => !(showsMainMenu e)) = true := by
  exact ⟨rfl, by decide⟩

/-- C6 (amended): a bare `regen` token matches no handler branch (the
handler tests `startswith("regen:")`); it falls through to the unknown-action
fallback, replying `Unknown action.` with no keyboard, for any generator
outcome. -/
theorem C6_bare_regen_unknown (gen : Except String String) :
    callback_query_handler "regen" gen =
      [Effect.answerCallback, Effect.replyText "Unknown action." none] := rfl

/-- C8: the `/start` handler replies with the welcome text and main menu as
its first effect, before any registry access, and performs no upsert at all
when no database pool is available. -/
theorem C8_start_order (u : TgUser) (db_pool : Option (List Int)) :
    (start u db_pool).head? =
      some (Effect.replyText welcome_text (some main_menu_keyboard)) ∧
    start u none = [Effect.replyText welcome_text (some main_menu_keyboard)] ∧
    dbUpserts (start u none) = [] :=
  ⟨rfl, rfl, rfl⟩


/-- C4: an admin broadcast with a non-empty message and an available pool
makes exactly one send attempt per registered recipient, in order; failures
do not abort the loop, and the final report counts satisfy
sent + failed = number of recipients. -/
theorem C4_broadcast_counts (ctx : BroadcastCtx) (deliver : Int → Bool) (ids : List Int)
    (hadmin : ctx.callerId ∈ ctx.adminIds)
    (hpool : ctx.db_pool = some ids)
    (hmsg : pyStrip (String.intercalate " " ctx.args) ≠ "") :
    sendAttempts (broadcast_cmd ctx deliver) = ids ∧
    (broadcast_loop deliver (pyStrip (String.intercalate " " ctx.args)) ids).2.1
      + (broadcast_loop deliver (pyStrip (String.intercalate " " ctx.args)) ids).2.2
      = ids.length ∧
    (broadcast_cmd ctx deliver).getLast? =
      some (Effect.replyText
        ("Done. Sent: "
          ++ toString (broadcast_loop deliver (pyStrip (String.intercalate " " ctx.args)) ids).2.1
          ++ ", Failed: "
          ++ toString (broadcast_loop deliver (pyStrip (String.intercalate " " ctx.args)) ids).2.2)
        none) := by
  have hmem : ¬ ctx.callerId ∉ ctx.adminIds := by simp [hadmin]
  have htrace : broadcast_cmd ctx deliver =
      Effect.dbFetchIds ::
      Effect.replyText ("Broadcasting to " ++ toString ids.length ++ " users...") none ::
      (broadcast_loop deliver (pyStrip (String.intercalate " " ctx.args)) ids).1
      ++ [Effect.replyText
            ("Done. Sent: "
              ++ toString (broadcast_loop deliver (pyStrip (String.intercalate " " ctx.args)) ids).2.1
              ++ ", Failed: "
              ++ toString (broadcast_loop deliver (pyStrip (String.intercalate " " ctx.args)) ids).2.2)
            none] := by
    rw [broadcast_cmd, if_neg hmem, if_neg hmsg, hpool]
  refine ⟨?_, broadcast_loop_counts deliver _ ids, ?_⟩
  · rw [htrace]
    simp only [sendAttempts, List.filterMap_cons, List.filterMap_append,
      broadcast_loop_trace]
    simpa [sendAttempts] using sendAttempts_of_sends (pyStrip (String.intercalate " " ctx.args)) ids
  · rw [htrace]
    rw [show (Effect.dbFetchIds ::
        Effect.replyText ("Broadcasting to " ++ toString ids.length ++ " users...") none ::
        (broadcast_loop deliver (pyStrip (String.intercalate " " ctx.args)) ids).1
        ++ [Effect.replyText
              ("Done. Sent: "
                ++ toString (broadcast_loop deliver (pyStrip (String.intercalate " " ctx.args)) ids).2.1
                ++ ", Failed: "
                ++ toString (broadcast_loop deliver (pyStrip (String.intercalate " " ctx.args)) ids).2.2)
              none])
        = (Effect.dbFetchIds ::
        Effect.replyText ("Broadcasting to " ++ toString ids.length ++ " users...") none ::
        (broadcast_loop deliver (pyStrip (String.intercalate " " ctx.args)) ids).1)
        ++ [Effect.replyText
              ("Done. Sent: "
                ++ toString (broadcast_loop deliver (pyStrip (String.intercalate " " ctx.args)) ids).2.1
                ++ ", Failed: "
                ++ toString (broadcast_loop deliver (pyStrip (String.intercalate " " ctx.args)) ids).2.2)
              none] from by simp]
    rw [List.getLast?_concat]

theorem C4_witness :
    ((7 : Int) ∈ [(7 : Int)] ∧
      (BroadcastCtx.mk 7 [7] ["Hello"] (some [1, 2, 3])).db_pool = some [1, 2, 3] ∧
      pyStrip (String.intercalate " " ["Hello"]) ≠ "") ∧
    (sendAttempts (broadcast_cmd (BroadcastCtx.mk 7 [7] ["Hello"] (some [1, 2, 3]))
        (fun uid => uid != 2)) = [1, 2, 3] ∧
      (broadcast_loop (fun uid => uid != 2) (pyStrip (String.intercalate " " ["Hello"])) [1, 2, 3]).2.1
        + (broadcast_loop (fun uid => uid != 2) (pyStrip (String.intercalate " " ["Hello"])) [1, 2, 3]).2.2
        = ([1, 2, 3] : List Int).length ∧
      (broadcast_cmd (BroadcastCtx.mk 7 [7] ["Hello"] (some [1, 2, 3]))
          (fun uid => uid != 2)).getLast? =
        some (Effect.replyText "Done. Sent: 2, Failed: 1" none)) :=
  ⟨⟨by decide, rfl, by decide⟩,
    C4_broadcast_counts (BroadcastCtx.mk 7 [7] ["Hello"] (some [1, 2, 3]))
      (fun uid => uid != 2) [1, 2, 3] (by decide) rfl (by decide)⟩


/-- C5: the broadcast command performs zero deliveries unless the caller is
an admin and the message body is non-empty: a non-admin caller gets the
authorization rejection, an admin with an empty body gets the usage error,
and in both cases no send attempt occurs. -/
theorem C5_broadcast_guards (ctx : BroadcastCtx) (deliver : Int → Bool) :
    (ctx.callerId ∉ ctx.adminIds →
      broadcast_cmd ctx deliver =
        [Effect.replyText "You are not authorized to broadcast." none] ∧
      sendAttempts (broadcast_cmd ctx deliver) = []) ∧
    (ctx.callerId ∈ ctx.adminIds →
      pyStrip (String.intercalate " " ctx.args) = "" →
      broadcast_cmd ctx deliver = [Effect.replyText "Usage: /broadcast <message>" none] ∧
      sendAttempts (broadcast_cmd ctx deliver) = []) := by
  constructor
  · intro h
    have htr : broadcast_cmd ctx deliver =
        [Effect.replyText "You are not authorized to broadcast." none] := by
      rw [broadcast_cmd, if_pos h]
    exact ⟨htr, by rw [htr]; rfl⟩
  · intro hmem hmsg
    have htr : broadcast_cmd ctx deliver =
        [Effect.replyText "Usage: /broadcast <message>" none] := by
      rw [broadcast_cmd, if_neg (by simp [hmem]), if_pos hmsg]
    exact ⟨htr, by rw [htr]; rfl⟩

theorem C5_witness :
    ((5 : Int) ∉ ([] : List Int) ∧
      broadcast_cmd (BroadcastCtx.mk 5 [] ["x"] none) (fun _ => true) =
        [Effect.replyText "You are not authorized to broadcast." none] ∧
      sendAttempts (broadcast_cmd (BroadcastCtx.mk 5 [] ["x"] none) (fun _ => true)) = []) ∧
    ((7 : Int) ∈ [(7 : Int)] ∧
      pyStrip (String.intercalate " " ([] : List String)) = "" ∧
      broadcast_cmd (BroadcastCtx.mk 7 [7] [] (some [1])) (fun _ => true) =
        [Effect.replyText "Usage: /broadcast <message>" none] ∧
      sendAttempts (broadcast_cmd (BroadcastCtx.mk 7 [7] [] (some [1])) (fun _ => true)) = []) :=
  ⟨⟨by decide,
    (C5_broadcast_guards (BroadcastCtx.mk 5 [] ["x"] none) (fun _ => true)).1 (by decide)⟩,
   ⟨by decide, rfl,
    (C5_broadcast_guards (BroadcastCtx.mk 7 [7] [] (some [1])) (fun _ => true)).2 (by decide) rfl⟩⟩

/-- C7: for every known category the built prompt contains the literal
output-only directive and the category's human-readable label; an
unrecognized key yields the same templated prompt with the raw key
substituted (which the prompt then contains verbatim). -/
theorem C7_prompt_contents :
    (∀ kl ∈ REPORT_CATEGORIES,
      strContains (buildPrompt (dictGet REPORT_CATEGORIES kl.1 kl.1)) output_only_directive ∧
      strContains (buildPrompt (dictGet REPORT_CATEGORIES kl.1 kl.1)) kl.2) ∧
    (∀ k : String, REPORT_CATEGORIES.lookup k = none →
      buildPrompt (dictGet REPORT_CATEGORIES k k) = buildPrompt k ∧
      strContains (buildPrompt k) k) := by
  constructor
  · intro kl hkl
    simp only [REPORT_CATEGORIES, List.mem_cons, List.not_mem_nil, or_false] at hkl
    rcases hkl with rfl | rfl | rfl | rfl | rfl <;>
      exact ⟨buildPrompt_contains_directive _, buildPrompt_contains_reason _⟩
  · intro k hk
    have hval : dictGet REPORT_CATEGORIES k k = k := by
      simp [dictGet, hk]
    exact ⟨by rw [hval], buildPrompt_contains_reason k⟩

theorem C7_witness :
    (("spam", "Spam report") ∈ REPORT_CATEGORIES ∧
      strContains (buildPrompt (dictGet REPORT_CATEGORIES "spam" "spam")) output_only_directive ∧
      strContains (buildPrompt (dictGet REPORT_CATEGORIES "spam" "spam")) "Spam report") ∧
    (REPORT_CATEGORIES.lookup "gibberish" = none ∧
      buildPrompt (dictGet REPORT_CATEGORIES "gibberish" "gibberish") = buildPrompt "gibberish" ∧
      strContains (buildPrompt "gibberish") "gibberish") :=
  ⟨⟨by decide, C7_prompt_contents.1 ("spam", "Spam report") (by decide)⟩,
   ⟨by decide, C7_prompt_contents.2 "gibberish" (by decide)⟩⟩

/-- C9: every callback token emitted by a keyboard the bot itself produces
(the main menu's `cat:<key>` and `help` buttons, and the post-generation
keyboard's `regen:<key>`, `back:menu` and `home` buttons for any category
key) is matched by a specific branch of the callback handler, never the
unknown-action fallback. -/
theorem C9_tokens_dispatch :
    (∀ t ∈ keyboardTokens main_menu_keyboard, dispatchBranch t ≠ Branch.unknown) ∧
    (∀ c : String, ∀ t ∈ keyboardTokens (report_item_keyboard c),
      dispatchBranch t ≠ Branch.unknown) := by
  constructor
  · intro t ht
    have hts : keyboardTokens main_menu_keyboard =
        ["cat:spam", "cat:harassment", "cat:illegal", "cat:unofficial", "cat:malware", "help"] := rfl
    rw [hts] at ht
    simp only [List.mem_cons, List.not_mem_nil, or_false] at ht
    rcases ht with rfl | rfl | rfl | rfl | rfl | rfl <;> decide
  · intro c t ht
    have hts : keyboardTokens (report_item_keyboard c) = ["regen:" ++ c, "back:menu", "home"] := rfl
    rw [hts] at ht
    simp only [List.mem_cons, List.not_mem_nil, or_false] at ht
    rcases ht with rfl | rfl | rfl
    · have hb : dispatchBranch ("regen:" ++ c) = Branch.regen := rfl
      rw [hb]; decide
    · decide
    · decide

theorem C9_witness :
    ("cat:spam" ∈ keyboardTokens main_menu_keyboard ∧
      dispatchBranch "cat:spam" ≠ Branch.unknown) ∧
    ("regen:spam" ∈ keyboardTokens (report_item_keyboard "spam") ∧
      dispatchBranch "regen:spam" ≠ Branch.unknown) :=
  ⟨⟨by decide, C9_tokens_dispatch.1 "cat:spam" (by decide)⟩,
   ⟨by decide, C9_tokens_dispatch.2 "spam" "regen:spam" (by decide)⟩⟩

/-- C10: in the broadcast command the admin check precedes the empty-message
check and the database access: a non-admin caller always receives the
authorization rejection (even with an empty body), and no registry read
occurs for any rejected call. -/
theorem C10_admin_check_first (ctx : BroadcastCtx) (deliver : Int → Bool) :
    (ctx.callerId ∉ ctx.adminIds →
      broadcast_cmd ctx deliver =
        [Effect.replyText "You are not authorized to broadcast." none]) ∧
    (ctx.callerId ∉ ctx.adminIds ∨ pyStrip (String.intercalate " " ctx.args) = "" →
      Effect.dbFetchIds ∉ broadcast_cmd ctx deliver) := by
  constructor
  · intro h
    rw [broadcast_cmd, if_pos h]
  · intro h
    by_cases hadm : ctx.callerId ∈ ctx.adminIds
    · have hmsg : pyStrip (String.intercalate " " ctx.args) = "" := by
        rcases h with h | h
        · exact absurd hadm h
        · exact h
      rw [broadcast_cmd, if_neg (by simp [hadm]), if_pos hmsg]
      decide
    · rw [broadcast_cmd, if_pos hadm]
      decide

theorem C10_witness :
    ((5 : Int) ∉ ([] : List Int) ∧
      broadcast_cmd (BroadcastCtx.mk 5 [] [] (some [1])) (fun _ => true) =
        [Effect.replyText "You are not authorized to broadcast." none]) ∧
    (((5 : Int) ∉ ([] : List Int) ∨ pyStrip (String.intercalate " " ([] : List String)) = "") ∧
      Effect.dbFetchIds ∉ broadcast_cmd (BroadcastCtx.mk 5 [] [] (some [1])) (fun _ => true)) :=
  ⟨⟨by decide, (C10_admin_check_first (BroadcastCtx.mk 5 [] [] (some [1])) (fun _ => true)).1 (by decide)⟩,
   ⟨Or.inl (by decide),
    (C10_admin_check_first (BroadcastCtx.mk 5 [] [] (some [1])) (fun _ => true)).2 (Or.inl (by decide))⟩⟩

end ReportBot
